import Mathlib

/-!
Shallow embedding of the two Streamlit scripts of this repository,
`dashboard.py` and `weather_map_dashboard.py`, together with theorems about
the claims of the specification.

Modelling conventions:
* Numeric (float) values are modelled as exact rationals `ℚ`.
* Timestamps are modelled as minutes on an integer clock `ℤ`; a call to
  `datetime.now()` reads a fixed ambient value `now` (the script runs within
  one clock tick).
* External numpy routines (`np.sin`, `np.cos`, `np.pi`, and the standard
  normal / standard uniform streams produced after `np.random.seed 42`) are
  inputs of the embedding, collected in environment structures: the repo code
  only composes them, so every claim is proved for an arbitrary environment
  (or refuted at a concrete one).
* Streamlit UI effects (`st.error`, `st.warning`, `st.metric`, `st.title`,
  charts, map widgets, ...) are modelled as an output trace `List Out`;
  `st.stop` truncates the trace.
* Python exceptions of the modelled operations are represented by the
  explicit failure data that triggers them (empty frames, missing columns,
  failure flags for external folium / geometry calls); each `try/except`
  block of the source becomes the corresponding branch of the definition.
-/

namespace WeatherDash

/-- One Streamlit UI effect emitted by a script. -/
inductive Out
  | error (msg : String)
  | warning (msg : String)
  | success (msg : String)
  | info (msg : String)
  | title (s : String)
  | header (s : String)
  | tabs (names : List String)
  | metric (label : String) (val : ℚ)
  | lineChart
  | mapView
  | choroplethLayer
  | tooltipLayer (region : String) (temp : ℚ)
  | debug (msg : String)
  deriving DecidableEq

/-- External numpy environment for `dashboard.py`: float trig routines, the
float value of `np.pi`, and the standard-normal stream that
`np.random.seed 42` determines (draw `i` is the `i`-th standard normal
produced after seeding; `np.random.normal loc scale` returns
`loc + scale * draw`). -/
structure NumpyEnv where
  sin : ℚ → ℚ
  cos : ℚ → ℚ
  pi : ℚ
  normal : ℕ → ℚ

/-- `num_points = 100` in `generate_weather_data`. -/
def num_points : ℕ := 100

/-- `np.linspace lo hi n` at index `i`: `lo + (hi - lo) * i / (n - 1)`. -/
def linspace (lo hi : ℚ) (n i : ℕ) : ℚ :=
  lo + (hi - lo) * i / ((n : ℚ) - 1)

/-- `temperature_data = 20 + 5*np.sin(np.linspace(0, 3π, 100)) + np.random.normal(0, 0.5, 100)`;
the first `normal` call after seeding consumes draws `0..99`. -/
def temperature_data (env : NumpyEnv) : List ℚ :=
  (List.range num_points).map fun (i : ℕ) =>
    20 + 5 * env.sin (linspace 0 (3 * env.pi) num_points i) + (0 + 0.5 * env.normal i)

/-- `humidity_data = 50 + 10*np.cos(np.linspace(0, 2π, 100)) + np.random.normal(0, 1, 100)`;
the second `normal` call consumes draws `100..199`. -/
def humidity_data (env : NumpyEnv) : List ℚ :=
  (List.range num_points).map fun (i : ℕ) =>
    50 + 10 * env.cos (linspace 0 (2 * env.pi) num_points i) + (0 + 1 * env.normal (num_points + i))

/-- `wind_data = 10 + 3*np.sin(np.linspace(0, 4π, 100)) + np.random.normal(0, 0.7, 100)`;
the third `normal` call consumes draws `200..299`. -/
def wind_data (env : NumpyEnv) : List ℚ :=
  (List.range num_points).map fun (i : ℕ) =>
    10 + 3 * env.sin (linspace 0 (4 * env.pi) num_points i) + (0 + 0.7 * env.normal (2 * num_points + i))

/-- `time_index = [datetime.now() - timedelta(minutes=99-i) for i in range(num_points)]`,
in minutes on the ambient clock. -/
def time_index (now : ℤ) : List ℤ :=
  (List.range num_points).map fun (i : ℕ) => now - (99 - (i : ℤ))

/-- The successful result of `generate_weather_data`: the four columns of the
pandas DataFrame it builds. -/
structure WeatherDF where
  time : List ℤ
  temperature : List ℚ
  humidity : List ℚ
  wind : List ℚ
  deriving DecidableEq

/-- `generate_weather_data`: builds the three arrays, range-checks them
(`temperature` in `[-50, 60]`, `humidity` in `[0, 100]`, `wind ≥ 0`), and on
any violation raises `ValueError`, which the enclosing `except` turns into an
`st.error` message and a `None` result. -/
def generate_weather_data (env : NumpyEnv) (now : ℤ) : Option WeatherDF × List Out :=
  let temps := temperature_data env
  let hums := humidity_data env
  let winds := wind_data env
  if temps.any (fun t => decide (t < -50) || decide (t > 60)) then
    (none, [Out.error "Error generating weather data: Temperature data contains unrealistic values"])
  else if hums.any (fun h => decide (h < 0) || decide (h > 100)) then
    (none, [Out.error "Error generating weather data: Humidity data contains unrealistic values"])
  else if winds.any (fun w => decide (w < 0)) then
    (none, [Out.error "Error generating weather data: Wind speed data contains negative values"])
  else
    (some { time := time_index now, temperature := temps, humidity := hums, wind := winds }, [])

/-- pandas column dtype, as far as `validate_dataframe` inspects it. -/
inductive DType
  | datetime
  | float
  deriving DecidableEq

/-- One pandas column: name, dtype, and cells (`none` models `NaN`). -/
structure Column where
  name : String
  dtype : DType
  values : List (Option ℚ)
  deriving DecidableEq

/-- A pandas DataFrame, as far as `validate_dataframe` inspects it. -/
structure DataFrame where
  columns : List Column
  deriving DecidableEq

/-- The column names of a DataFrame (`df.columns`). -/
def DataFrame.names (df : DataFrame) : List String :=
  df.columns.map Column.name

/-- `required_columns` of `validate_dataframe`. -/
def required_columns : List String :=
  ["Time", "Temperature (°C)", "Humidity (%)", "Wind Speed (km/h)"]

/-- `validate_dataframe`: raises (hence returns `False` with an `st.error`)
when a required column is missing; merely warns on `NaN` cells and on a
non-datetime `Time` column; otherwise returns `True`. -/
def validate_dataframe (df : DataFrame) : Bool × List Out :=
  let missing := required_columns.filter fun c => !(df.names.contains c)
  if missing.isEmpty then
    let nanWarn :=
      if df.columns.any (fun c => c.values.any Option.isNone) then
        [Out.warning "Found NaN values"]
      else []
    match df.columns.find? (fun c => c.name == "Time") with
    | some timeCol =>
        let dtWarn :=
          if timeCol.dtype ≠ DType.datetime then
            [Out.warning "Time column is not datetime type"]
          else []
        (true, nanWarn ++ dtWarn)
    | none =>
        (false, nanWarn ++ [Out.error "DataFrame validation failed: Time"])
  else
    (false, [Out.error "DataFrame validation failed: Missing required columns"])

/-- The DataFrame built by `generate_weather_data` as `validate_dataframe`
sees it: four columns, `Time` of datetime dtype, no `NaN` cell. -/
def weatherToDF (w : WeatherDF) : DataFrame :=
  { columns :=
      [ { name := "Time", dtype := DType.datetime, values := w.time.map fun t => some (t : ℚ) },
        { name := "Temperature (°C)", dtype := DType.float, values := w.temperature.map some },
        { name := "Humidity (%)", dtype := DType.float, values := w.humidity.map some },
        { name := "Wind Speed (km/h)", dtype := DType.float, values := w.wind.map some } ] }

/-- Python `f-string` formatting `.1f` of a float, modelled on `ℚ` as
rounding to one decimal place. -/
def fmt1 (q : ℚ) : ℚ :=
  ((10 * q + 1 / 2).floor : ℚ) / 10

/-- One `col.metric` block of the `Current Values` section: shows the last
entry (`iloc[-1]`) formatted to one decimal; on an empty series the
`IndexError` is caught and an inline `col.error` is shown instead. -/
def metricOut (label : String) (vals : List ℚ) : List Out :=
  match vals.getLast? with
  | some v => [Out.metric label (fmt1 v)]
  | none => [Out.error ("Error loading " ++ label)]

/-- `show_dashboard` of `dashboard.py` (debug summary omitted when the debug
flag is off, as in the source). -/
def show_dashboard (df : Option WeatherDF) (dbg : Bool) : List Out :=
  [Out.title "Weather Dashboard"] ++
  match df with
  | none => [Out.error "No data available to display"]
  | some w =>
      [Out.header "Current Values"] ++
      metricOut "Temperature (°C)" w.temperature ++
      metricOut "Humidity (%)" w.humidity ++
      metricOut "Wind Speed (km/h)" w.wind ++
      [Out.header "Trends Over Time", Out.lineChart] ++
      (if dbg then [Out.header "Data Summary"] else []) ++
      [Out.success "Dashboard displayed successfully"]

/-- The module top level of `dashboard.py` (as run on import): generates the
data, on `None` emits a fatal error and `st.stop`s, then validates and on
failure emits a fatal error and `st.stop`s. Returns the module global `df`,
the trace, and whether the script stopped. -/
def dashboardRun (env : NumpyEnv) (now : ℤ) : Option WeatherDF × List Out × Bool :=
  match generate_weather_data env now with
  | (none, out) =>
      (none, out ++ [Out.error "Failed to generate weather data. Please check the error messages above."], true)
  | (some w, out) =>
      match validate_dataframe (weatherToDF w) with
      | (true, vout) => (some w, out ++ vout, false)
      | (false, vout) =>
          (some w, out ++ vout ++ [Out.error "Data validation failed. Please check the error messages above."], true)

/-- Result of `gpd.read_file "singapore_regions.geojson"`: the file may be
absent (`FileNotFoundError`), unreadable (generic exception), or yield a
GeoDataFrame with column names `cols` and one row per region with the given
`region` property values. -/
inductive GeoLoad
  | fileNotFound
  | loadError (e : String)
  | ok (cols : List String) (rows : List String)
  deriving DecidableEq

/-- External inputs of `weather_map_dashboard.py` beyond the numpy routines
of `dashboard.py`: the load result of the geometry file, the standard-uniform
stream after `np.random.seed 42`, whether the geometry of row `i` makes the
tooltip construction (`simplify` / `to_json` / `folium.GeoJson`) raise, and
whether `folium.Map` / `st_folium` raise. -/
structure MapEnv where
  geo : GeoLoad
  uniform : ℕ → ℚ
  tooltipFails : ℕ → Bool
  mapCreateFails : Bool
  mapDisplayFails : Bool

/-- The per-region temperatures: `np.random.uniform 26 34 n`, i.e.
`26 + (34 - 26) * u_i` where `u_i` is the `i`-th standard-uniform draw after
seeding. -/
def assignTemps (n : ℕ) (uniform : ℕ → ℚ) : List ℚ :=
  (List.range n).map fun (i : ℕ) => 26 + (34 - 26) * uniform i

/-- The tooltip `for` loop over `regions_gdf.iterrows()` starting at row
index `i`: a failing row is skipped (its `debug_print` warning call is
recorded as a log line) and the loop continues; a succeeding row adds one
tooltip layer and increments `tooltip_count`. Returns the added layers, the
failure log lines, and the final count. -/
def tooltipLoop : List (String × ℚ) → (ℕ → Bool) → ℕ → List (String × ℚ) × List String × ℕ
  | [], _, _ => ([], [], 0)
  | r :: rs, fails, i =>
    let rest := tooltipLoop rs fails (i + 1)
    if fails i then
      (rest.1, ("Warning: Failed to add tooltip for region " ++ r.1) :: rest.2.1, rest.2.2)
    else
      (r :: rest.1, rest.2.1, rest.2.2 + 1)

/-- The `Current Values` metrics of `tab2`, identical per-metric `try` blocks
to `show_dashboard`. -/
def tab2Out (df : Option WeatherDF) : List Out :=
  match df with
  | none => [Out.error "No time series data available"]
  | some w =>
      [Out.header "Current Values"] ++
      metricOut "Temperature (°C)" w.temperature ++
      metricOut "Humidity (%)" w.humidity ++
      metricOut "Wind Speed (km/h)" w.wind ++
      [Out.header "Trends Over Time", Out.lineChart,
       Out.success "Time series data displayed successfully"]

/-- The module top level of `weather_map_dashboard.py` with the debug
checkbox off (its default): import `dashboard` (running its top level, whose
`st.stop` propagates), load the geometry file (`st.stop` on absence, load
error, or empty frame), assign per-region temperatures, create the folium map
(`st.stop` on failure), add the choropleth layer (`st.stop` on failure, in
particular the `KeyError` when the `region` column is missing), add tooltips
(per-row failures skipped), then render title, tabs, map, time-series
metrics and chart, debug hint, and the sidebar success banner. -/
def mapScript (nenv : NumpyEnv) (now : ℤ) (env : MapEnv) : List Out :=
  let d := dashboardRun nenv now
  if d.2.2 then d.2.1
  else
    let pre := d.2.1 ++ [Out.success "Successfully imported dashboard module"]
    match env.geo with
    | GeoLoad.fileNotFound =>
        pre ++ [Out.error "File singapore_regions.geojson not found. Please ensure the file exists in the current directory."]
    | GeoLoad.loadError e =>
        pre ++ [Out.error ("Error loading GeoJSON file: " ++ e)]
    | GeoLoad.ok cols rows =>
        if rows.isEmpty then
          pre ++ [Out.error "No data found in the GeoJSON file"]
        else
          let temps := assignTemps rows.length env.uniform
          if env.mapCreateFails then
            pre ++ [Out.error "Error creating map"]
          else if !(cols.contains "region") then
            pre ++ [Out.error "Missing required column: region"]
          else
            let tl := tooltipLoop (rows.zip temps)
              (fun i => env.tooltipFails i || !(cols.contains "region")) 0
            pre ++ [Out.choroplethLayer] ++
            (tl.1.map fun rt => Out.tooltipLayer rt.1 rt.2) ++
            [Out.title "Singapore Weather Tracker",
             Out.tabs ["Weather Map", "Time Series Data", "Debug Info"]] ++
            (if env.mapDisplayFails then
              [Out.error "Error displaying map"]
            else
              [Out.mapView, Out.success "Map displayed successfully"]) ++
            tab2Out d.1 ++
            [Out.info "Enable Debug Mode in the sidebar to see debug information"] ++
            [Out.success "Dashboard loaded successfully!"]

/-- A numpy environment under which every draw and trig value is `0`: all
three generated series are constant (20 / 50 / 10) and well inside the
plausibility ranges. -/
def envZero : NumpyEnv :=
  { sin := fun _ => 0, cos := fun _ => 0, pi := 0, normal := fun _ => 0 }

/-- A numpy environment whose normal draws are all `200`: every temperature
is `20 + 0.5 * 200 = 120 > 60`. -/
def envHot : NumpyEnv :=
  { sin := fun _ => 0, cos := fun _ => 0, pi := 0, normal := fun _ => 200 }

/-! ### Helper lemmas -/

/-- On success, `generate_weather_data` returns exactly the frame built from
the three arrays and the time index, with an empty trace. -/
theorem generate_eq_of_ok (env : NumpyEnv) (now : ℤ) (df : WeatherDF)
    (h : (generate_weather_data env now).1 = some df) :
    generate_weather_data env now =
      (some { time := time_index now, temperature := temperature_data env,
              humidity := humidity_data env, wind := wind_data env }, [])
    ∧ df = { time := time_index now, temperature := temperature_data env,
             humidity := humidity_data env, wind := wind_data env } := by
  simp only [generate_weather_data] at h ⊢
  split at h
  · simp at h
  · split at h
    · simp at h
    · split at h
      · simp at h
      · simp only [Option.some.injEq] at h
        subst h
        rename_i h1 h2 h3
        rw [if_neg h1, if_neg h2, if_neg h3]
        exact ⟨rfl, rfl⟩

/-- The frame produced by a successful generation always passes
`validate_dataframe`, with no warnings: all four columns are present, `Time`
has datetime dtype, and no cell is `NaN`. -/
theorem validate_weatherToDF (w : WeatherDF) :
    validate_dataframe (weatherToDF w) = (true, []) := by
  have h1 : (required_columns.filter fun c => !((weatherToDF w).names.contains c)) = [] := rfl
  have h2 : ((weatherToDF w).columns.any (fun c => c.values.any Option.isNone)) = false := by
    rw [List.any_eq_false]
    intro c hc
    simp only [weatherToDF, List.mem_cons, List.not_mem_nil, or_false] at hc
    rcases hc with rfl | rfl | rfl | rfl <;> simp [List.any_eq_false]
  have h3 : (weatherToDF w).columns.find? (fun c => c.name == "Time") =
      some { name := "Time", dtype := DType.datetime, values := w.time.map fun t => some (t : ℚ) } := rfl
  simp only [validate_dataframe, h1, h2, h3]
  simp

/-- If generation succeeds, the `dashboard.py` module run completes without
stopping, with module global `df` set and an empty trace. -/
theorem dashboardRun_ok (env : NumpyEnv) (now : ℤ) (df : WeatherDF)
    (h : (generate_weather_data env now).1 = some df) :
    dashboardRun env now = (some df, [], false) := by
  obtain ⟨hg, hdf⟩ := generate_eq_of_ok env now df h
  subst hdf
  unfold dashboardRun
  rw [hg]
  simp [validate_weatherToDF]

/-- Under `envZero` the temperature range check passes. -/
theorem envZero_temps_ok :
    (temperature_data envZero).any (fun t => decide (t < -50) || decide (t > 60)) = false := by
  rw [List.any_eq_false]
  intro t ht
  simp [temperature_data, envZero] at ht
  obtain ⟨-, rfl⟩ := ht
  simp only [Bool.or_eq_true, decide_eq_true_eq, not_or]
  norm_num

/-- Under `envZero` the humidity range check passes. -/
theorem envZero_hums_ok :
    (humidity_data envZero).any (fun u => decide (u < 0) || decide (u > 100)) = false := by
  rw [List.any_eq_false]
  intro u hu
  simp [humidity_data, envZero] at hu
  obtain ⟨-, rfl⟩ := hu
  simp only [Bool.or_eq_true, decide_eq_true_eq, not_or]
  norm_num

/-- Under `envZero` the wind range check passes. -/
theorem envZero_winds_ok :
    (wind_data envZero).any (fun v => decide (v < 0)) = false := by
  rw [List.any_eq_false]
  intro v hv
  simp [wind_data, envZero] at hv
  obtain ⟨-, rfl⟩ := hv
  simp only [decide_eq_true_eq]
  norm_num

/-- The concrete frame generated under `envZero` at clock 0. -/
def dfZero : WeatherDF :=
  { time := time_index 0, temperature := temperature_data envZero,
    humidity := humidity_data envZero, wind := wind_data envZero }

/-- Under `envZero` generation succeeds and produces `dfZero`. -/
theorem generate_envZero : generate_weather_data envZero 0 = (some dfZero, []) := by
  simp [generate_weather_data, envZero_temps_ok, envZero_hums_ok, envZero_winds_ok, dfZero]

/-! ### Claim theorems -/

/-- C1: if any generated value falls outside the hardcoded plausibility
ranges (temperature below -50 or above 60, humidity below 0 or above 100,
wind speed below 0), then `generate_weather_data` rejects the whole batch: it
returns `None` and reports a failure message. -/
theorem generator_rejects_out_of_range (env : NumpyEnv) (now : ℤ)
    (h : (∃ t ∈ temperature_data env, t < -50 ∨ 60 < t) ∨
         (∃ u ∈ humidity_data env, u < 0 ∨ 100 < u) ∨
         (∃ v ∈ wind_data env, v < 0)) :
    (generate_weather_data env now).1 = none ∧
    ∃ e, Out.error e ∈ (generate_weather_data env now).2 := by
  simp only [generate_weather_data]
  cases hc1 : (temperature_data env).any (fun t => decide (t < -50) || decide (t > 60)) with
  | true => simp [hc1]
  | false =>
    cases hc2 : (humidity_data env).any (fun u => decide (u < 0) || decide (u > 100)) with
    | true => simp [hc1, hc2]
    | false =>
      cases hc3 : (wind_data env).any (fun v => decide (v < 0)) with
      | true => simp [hc1, hc2, hc3]
      | false =>
        exfalso
        simp only [List.any_eq_false, Bool.or_eq_true, decide_eq_true_eq, not_or,
          gt_iff_lt] at hc1 hc2 hc3
        rcases h with ⟨t, ht, hlt⟩ | ⟨u, hu, hlt⟩ | ⟨v, hv, hlt⟩
        · rcases hlt with hlt | hlt
          · exact (hc1 t ht).1 hlt
          · exact (hc1 t ht).2 hlt
        · rcases hlt with hlt | hlt
          · exact (hc2 u hu).1 hlt
          · exact (hc2 u hu).2 hlt
        · exact (hc3 v hv) hlt

/-- Witness for C1: under `envHot` every temperature equals `120 > 60`, so
generation returns `None` with an error message. -/
theorem generator_rejects_out_of_range_witness :
    (generate_weather_data envHot 0).1 = none ∧
    ∃ e, Out.error e ∈ (generate_weather_data envHot 0).2 := by
  refine generator_rejects_out_of_range envHot 0 (Or.inl ⟨120, ?_, ?_⟩)
  · rw [temperature_data]
    have h120 : (120 : ℚ) = 20 + 5 * envHot.sin (linspace 0 (3 * envHot.pi) num_points 0)
        + (0 + 0.5 * envHot.normal 0) := by
      norm_num [envHot]
    exact h120 ▸ List.mem_map_of_mem _ (by simp [num_points])
  · norm_num

/-- C3: for a fixed seed (hence a fixed post-seed draw stream `env.normal`),
two runs of `generate_weather_data` — at arbitrary, possibly different, call
times — produce identical temperature, humidity, and wind arrays. -/
theorem generator_numeric_arrays_deterministic (env : NumpyEnv) (now1 now2 : ℤ) :
    (generate_weather_data env now1).1.map WeatherDF.temperature =
      (generate_weather_data env now2).1.map WeatherDF.temperature ∧
    (generate_weather_data env now1).1.map WeatherDF.humidity =
      (generate_weather_data env now2).1.map WeatherDF.humidity ∧
    (generate_weather_data env now1).1.map WeatherDF.wind =
      (generate_weather_data env now2).1.map WeatherDF.wind := by
  simp only [generate_weather_data]
  cases hc1 : (temperature_data env).any (fun t => decide (t < -50) || decide (t > 60)) <;>
  cases hc2 : (humidity_data env).any (fun u => decide (u < 0) || decide (u > 100)) <;>
  cases hc3 : (wind_data env).any (fun v => decide (v < 0)) <;>
  simp [hc1, hc2, hc3]

/-- Value of `time_index` at a valid position. -/
theorem time_index_getD (now : ℤ) (i : ℕ) (h : i < num_points) :
    (time_index now).getD i 0 = now - (99 - (i : ℤ)) := by
  rw [time_index, List.getD_eq_getElem?_getD, List.getElem?_map, List.getElem?_range h]
  rfl

/-- C4: whenever `generate_weather_data` succeeds, its output has exactly 100
rows (the configured sample count) in every column, consecutive timestamps
are strictly increasing and exactly one minute apart, and the last timestamp
equals the call time. -/
theorem generator_success_count_and_timestamps (env : NumpyEnv) (now : ℤ) (df : WeatherDF)
    (h : (generate_weather_data env now).1 = some df) :
    df.time.length = 100 ∧ df.temperature.length = 100 ∧
    df.humidity.length = 100 ∧ df.wind.length = 100 ∧
    (∀ i, i + 1 < df.time.length →
      df.time.getD i 0 < df.time.getD (i + 1) 0 ∧
      df.time.getD (i + 1) 0 = df.time.getD i 0 + 1) ∧
    df.time.getLast? = some now := by
  obtain ⟨-, hdf⟩ := generate_eq_of_ok env now df h
  subst hdf
  have hlen : (time_index now).length = 100 := by
    rw [time_index, List.length_map, List.length_range]
    rfl
  refine ⟨hlen, ?_, ?_, ?_, ?_, ?_⟩
  · rw [temperature_data, List.length_map, List.length_range]
    rfl
  · rw [humidity_data, List.length_map, List.length_range]
    rfl
  · rw [wind_data, List.length_map, List.length_range]
    rfl
  · intro i hi
    rw [hlen] at hi
    rw [time_index_getD now i (show i < 100 by omega),
      time_index_getD now (i + 1) (show i + 1 < 100 by omega)]
    constructor
    · push_cast
      omega
    · push_cast
      omega
  · rw [time_index, List.getLast?_eq_getElem?, List.length_map, List.length_range,
      List.getElem?_map, List.getElem?_range (by norm_num [num_points])]
    norm_num [num_points]

/-- Witness for C4 under `envZero` at clock 0. -/
theorem generator_success_count_and_timestamps_witness :
    (generate_weather_data envZero 0).1 = some dfZero ∧
    (dfZero.time.length = 100 ∧ dfZero.temperature.length = 100 ∧
     dfZero.humidity.length = 100 ∧ dfZero.wind.length = 100 ∧
     (∀ i, i + 1 < dfZero.time.length →
       dfZero.time.getD i 0 < dfZero.time.getD (i + 1) 0 ∧
       dfZero.time.getD (i + 1) 0 = dfZero.time.getD i 0 + 1) ∧
     dfZero.time.getLast? = some 0) := by
  have h : (generate_weather_data envZero 0).1 = some dfZero := by rw [generate_envZero]
  exact ⟨h, generator_success_count_and_timestamps envZero 0 dfZero h⟩

/-- C5: the tooltip loop yields one outcome per region row — each row either
adds its tooltip layer or is skipped with a logged warning (so the number of
added layers plus the number of logged failures equals the number of rows);
the added layers are exactly those of the non-failing rows, independent of
any earlier failure, and the final count equals the number of added
layers. -/
theorem tooltip_loop_attempts_all_rows (rows : List (String × ℚ)) (fails : ℕ → Bool) (i : ℕ) :
    (tooltipLoop rows fails i).1 =
      ((rows.enumFrom i).filter (fun p => !(fails p.1))).map Prod.snd ∧
    (tooltipLoop rows fails i).2.1 =
      ((rows.enumFrom i).filter (fun p => fails p.1)).map
        (fun p => "Warning: Failed to add tooltip for region " ++ p.2.1) ∧
    (tooltipLoop rows fails i).1.length + (tooltipLoop rows fails i).2.1.length = rows.length ∧
    (tooltipLoop rows fails i).2.2 = (tooltipLoop rows fails i).1.length := by
  induction rows generalizing i with
  | nil => simp [tooltipLoop]
  | cons r rs ih =>
    obtain ⟨ih1, ih2, ih3, ih4⟩ := ih (i + 1)
    cases hf : fails i with
    | true =>
      simp only [tooltipLoop, hf, if_pos, List.enumFrom, List.filter_cons, hf,
        Bool.not_true, List.map_cons, List.length_cons]
      refine ⟨ih1, by simp [ih2], by simp [ih1, ih2] at ih3 ⊢; omega, ih4⟩
    | false =>
      simp only [tooltipLoop, hf, List.enumFrom, List.filter_cons, Bool.not_false,
        List.map_cons, List.length_cons]
      refine ⟨by simp [ih1], ih2, by simp [ih1, ih2] at ih3 ⊢; omega, by simp [ih4]⟩

/-- C6: a DataFrame with all four required columns but containing NaN cells
is flagged with a warning, yet `validate_dataframe` still returns `True`. -/
theorem validate_flags_nan_but_passes (df : DataFrame)
    (hcols : ∀ c ∈ required_columns, c ∈ df.names)
    (hnan : ∃ c ∈ df.columns, (none : Option ℚ) ∈ c.values) :
    (validate_dataframe df).1 = true ∧
    Out.warning "Found NaN values" ∈ (validate_dataframe df).2 := by
  have h1 : (required_columns.filter fun c => !(df.names.contains c)) = [] := by
    rw [List.filter_eq_nil_iff]
    intro c hc
    simpa using hcols c hc
  have h2 : (df.columns.any (fun c => c.values.any Option.isNone)) = true := by
    rw [List.any_eq_true]
    obtain ⟨c, hc, hv⟩ := hnan
    exact ⟨c, hc, List.any_eq_true.mpr ⟨none, hv, rfl⟩⟩
  have h3 : ∃ tc, df.columns.find? (fun c => c.name == "Time") = some tc := by
    have : "Time" ∈ df.names := hcols "Time" (by simp [required_columns])
    simp only [DataFrame.names, List.mem_map] at this
    obtain ⟨c, hc, hname⟩ := this
    have hsome : (df.columns.find? (fun c => c.name == "Time")).isSome := by
      rw [List.find?_isSome]
      exact ⟨c, hc, by simp [hname]⟩
    exact Option.isSome_iff_exists.mp hsome
  obtain ⟨tc, htc⟩ := h3
  simp only [validate_dataframe, h1, h2, htc]
  simp

/-- A concrete frame with all four required columns and one NaN cell. -/
def dfWithNaN : DataFrame :=
  { columns :=
      [ { name := "Time", dtype := DType.datetime, values := [some 0] },
        { name := "Temperature (°C)", dtype := DType.float, values := [none] },
        { name := "Humidity (%)", dtype := DType.float, values := [some 1] },
        { name := "Wind Speed (km/h)", dtype := DType.float, values := [some 2] } ] }

/-- Witness for C6 at `dfWithNaN`. -/
theorem validate_flags_nan_but_passes_witness :
    (validate_dataframe dfWithNaN).1 = true ∧
    Out.warning "Found NaN values" ∈ (validate_dataframe dfWithNaN).2 := by
  refine validate_flags_nan_but_passes dfWithNaN ?_ ?_
  · intro c hc
    simp only [required_columns, List.mem_cons, List.not_mem_nil, or_false] at hc
    rcases hc with rfl | rfl | rfl | rfl <;> simp [dfWithNaN, DataFrame.names]
  · exact ⟨{ name := "Temperature (°C)", dtype := DType.float, values := [none] },
      by simp [dfWithNaN], by simp⟩

/-- C8: for a nonempty series, each of the three Current Values metrics shows
the value in the last row of the frame, formatted to one decimal place. -/
theorem metrics_show_last_row_one_decimal (w : WeatherDF) (dbg : Bool) (t u v : ℚ)
    (ht : w.temperature.getLast? = some t)
    (hu : w.humidity.getLast? = some u)
    (hv : w.wind.getLast? = some v) :
    Out.metric "Temperature (°C)" (fmt1 t) ∈ show_dashboard (some w) dbg ∧
    Out.metric "Humidity (%)" (fmt1 u) ∈ show_dashboard (some w) dbg ∧
    Out.metric "Wind Speed (km/h)" (fmt1 v) ∈ show_dashboard (some w) dbg := by
  simp [show_dashboard, metricOut, ht, hu, hv]

/-- Witness for C8 at a one-row frame. -/
theorem metrics_show_last_row_one_decimal_witness :
    Out.metric "Temperature (°C)" (fmt1 20) ∈ show_dashboard (some ⟨[0], [20], [50], [10]⟩) false ∧
    Out.metric "Humidity (%)" (fmt1 50) ∈ show_dashboard (some ⟨[0], [20], [50], [10]⟩) false ∧
    Out.metric "Wind Speed (km/h)" (fmt1 10) ∈ show_dashboard (some ⟨[0], [20], [50], [10]⟩) false :=
  metrics_show_last_row_one_decimal ⟨[0], [20], [50], [10]⟩ false 20 50 10 rfl rfl rfl

/-- C10: every per-region temperature is `26 + (34 - 26) * u` for a
standard-uniform draw `u`; with draws in `[0, 1)` (the numpy contract for
`random_sample`), it lies in the half-open interval `[26, 34)`. -/
theorem region_temperature_in_uniform_range (n : ℕ) (uniform : ℕ → ℚ) (t : ℚ)
    (hu : ∀ i, 0 ≤ uniform i ∧ uniform i < 1)
    (ht : t ∈ assignTemps n uniform) :
    26 ≤ t ∧ t < 34 := by
  simp only [assignTemps, List.mem_map, List.mem_range] at ht
  obtain ⟨i, -, rfl⟩ := ht
  obtain ⟨h0, h1⟩ := hu i
  constructor
  · linarith
  · linarith

/-- Witness for C10 with a single region and the constant draw 1/2. -/
theorem region_temperature_in_uniform_range_witness :
    26 ≤ 26 + (34 - 26) * ((1 : ℚ) / 2) ∧ 26 + (34 - 26) * ((1 : ℚ) / 2) < 34 := by
  refine region_temperature_in_uniform_range 1 (fun _ => 1 / 2) _ ?_ ?_
  · intro i
    norm_num
  · simp [assignTemps]

/-- C7: if the geometry file is absent, or present but empty, the map script
emits a fatal error and stops: no title, no tabs, no map widget, no
choropleth, no metric, no chart is rendered. (Stated under the hypothesis
that series generation succeeded, since `import dashboard` runs first.) -/
theorem missing_geometry_fatal_no_partial_render (nenv : NumpyEnv) (now : ℤ) (df : WeatherDF)
    (env : MapEnv)
    (hgen : (generate_weather_data nenv now).1 = some df)
    (hgeo : env.geo = GeoLoad.fileNotFound ∨ ∃ cols, env.geo = GeoLoad.ok cols []) :
    (∃ e, Out.error e ∈ mapScript nenv now env) ∧
    (∀ s, Out.title s ∉ mapScript nenv now env) ∧
    (∀ ns, Out.tabs ns ∉ mapScript nenv now env) ∧
    Out.mapView ∉ mapScript nenv now env ∧
    Out.choroplethLayer ∉ mapScript nenv now env ∧
    (∀ l q, Out.metric l q ∉ mapScript nenv now env) ∧
    Out.lineChart ∉ mapScript nenv now env := by
  have hd := dashboardRun_ok nenv now df hgen
  rcases hgeo with hgeo | ⟨cols, hgeo⟩
  · simp [mapScript, hd, hgeo]
  · simp [mapScript, hd, hgeo]

/-- Map environment with the geometry file absent and no other failure. -/
def envNoFile : MapEnv :=
  { geo := GeoLoad.fileNotFound, uniform := fun _ => 0, tooltipFails := fun _ => false,
    mapCreateFails := false, mapDisplayFails := false }

/-- Witness for C7 at `envNoFile`. -/
theorem missing_geometry_fatal_no_partial_render_witness :
    (∃ e, Out.error e ∈ mapScript envZero 0 envNoFile) ∧
    (∀ s, Out.title s ∉ mapScript envZero 0 envNoFile) ∧
    (∀ ns, Out.tabs ns ∉ mapScript envZero 0 envNoFile) ∧
    Out.mapView ∉ mapScript envZero 0 envNoFile ∧
    Out.choroplethLayer ∉ mapScript envZero 0 envNoFile ∧
    (∀ l q, Out.metric l q ∉ mapScript envZero 0 envNoFile) ∧
    Out.lineChart ∉ mapScript envZero 0 envNoFile :=
  missing_geometry_fatal_no_partial_render envZero 0 dfZero envNoFile
    (by rw [generate_envZero]) (Or.inl rfl)

/-- Map environment for which the geometry file loads with one region row
but without a `region` column, and no other external failure. -/
def envNoRegionCol : MapEnv :=
  { geo := GeoLoad.ok ["name"] ["Central"], uniform := fun _ => 1 / 2,
    tooltipFails := fun _ => false, mapCreateFails := false, mapDisplayFails := false }

/-- C2 counterexample: the geometry file is present and nonempty, and the
synthetic series passes range validation, yet a failure of the choropleth
step (a missing `region` column) halts all further rendering — title, tabs,
and map are never emitted. Hence the two claimed fatal conditions are not
the only fatal ones. -/
theorem choropleth_failure_also_fatal :
    (generate_weather_data envZero 0).1.isSome = true ∧
    envNoRegionCol.geo = GeoLoad.ok ["name"] ["Central"] ∧
    (["Central"] : List String) ≠ [] ∧
    (∃ e, Out.error e ∈ mapScript envZero 0 envNoRegionCol) ∧
    (∀ s, Out.title s ∉ mapScript envZero 0 envNoRegionCol) ∧
    (∀ ns, Out.tabs ns ∉ mapScript envZero 0 envNoRegionCol) ∧
    Out.mapView ∉ mapScript envZero 0 envNoRegionCol := by
  have hd := dashboardRun_ok envZero 0 dfZero (by rw [generate_envZero])
  refine ⟨by rw [generate_envZero]; rfl, rfl, by simp, ?_, ?_, ?_, ?_⟩ <;>
    simp [mapScript, hd, envNoRegionCol]

/-- C2 amended: with generation succeeding and the geometry file present and
nonempty, tooltip-construction failures and a map-display failure are local
(title, tabs and the choropleth layer still render, whatever those failures
are), while a folium map-creation failure or a choropleth failure (missing
`region` column) is fatal: an error is emitted and neither title nor tabs
render. -/
theorem map_fatal_and_local_conditions (nenv : NumpyEnv) (now : ℤ) (df : WeatherDF)
    (env : MapEnv) (cols : List String) (rows : List String)
    (hgen : (generate_weather_data nenv now).1 = some df)
    (hgeo : env.geo = GeoLoad.ok cols rows) (hne : rows ≠ []) :
    ((cols.contains "region" = true ∧ env.mapCreateFails = false) →
      Out.title "Singapore Weather Tracker" ∈ mapScript nenv now env ∧
      Out.tabs ["Weather Map", "Time Series Data", "Debug Info"] ∈ mapScript nenv now env ∧
      Out.choroplethLayer ∈ mapScript nenv now env) ∧
    ((env.mapCreateFails = true ∨ cols.contains "region" = false) →
      (∃ e, Out.error e ∈ mapScript nenv now env) ∧
      (∀ s, Out.title s ∉ mapScript nenv now env) ∧
      (∀ ns, Out.tabs ns ∉ mapScript nenv now env)) := by
  have hd := dashboardRun_ok nenv now df hgen
  have hne2 : rows.isEmpty = false := by
    simpa using hne
  constructor
  · rintro ⟨hreg, hmc⟩
    have hreg2 : "region" ∈ cols := by simpa using hreg
    refine ⟨?_, ?_, ?_⟩ <;> simp [mapScript, hd, hgeo, hne2, hreg2, hmc]
  · rintro (hmc | hreg)
    · refine ⟨?_, ?_, ?_⟩ <;> simp [mapScript, hd, hgeo, hne2, hmc]
    · have hreg2 : "region" ∉ cols := by simpa using hreg
      cases hmc2 : env.mapCreateFails
      · refine ⟨?_, ?_, ?_⟩ <;> simp [mapScript, hd, hgeo, hne2, hreg2, hmc2]
      · refine ⟨?_, ?_, ?_⟩ <;> simp [mapScript, hd, hgeo, hne2, hmc2]

/-- Map environment with the geometry file loading a proper `region` column
and no external failure at all. -/
def envRegionOk : MapEnv :=
  { geo := GeoLoad.ok ["region"] ["Central"], uniform := fun _ => 1 / 2,
    tooltipFails := fun _ => false, mapCreateFails := false, mapDisplayFails := false }

/-- Witness for the amended C2 at `envRegionOk`. -/
theorem map_fatal_and_local_conditions_witness :
    (((["region"] : List String).contains "region" = true ∧ envRegionOk.mapCreateFails = false) →
      Out.title "Singapore Weather Tracker" ∈ mapScript envZero 0 envRegionOk ∧
      Out.tabs ["Weather Map", "Time Series Data", "Debug Info"] ∈ mapScript envZero 0 envRegionOk ∧
      Out.choroplethLayer ∈ mapScript envZero 0 envRegionOk) ∧
    ((envRegionOk.mapCreateFails = true ∨ (["region"] : List String).contains "region" = false) →
      (∃ e, Out.error e ∈ mapScript envZero 0 envRegionOk) ∧
      (∀ s, Out.title s ∉ mapScript envZero 0 envRegionOk) ∧
      (∀ ns, Out.tabs ns ∉ mapScript envZero 0 envRegionOk)) :=
  map_fatal_and_local_conditions envZero 0 dfZero envRegionOk ["region"] ["Central"]
    (by rw [generate_envZero]) rfl (by simp)

end WeatherDash
